import Mathlib

/-!
Shallow embedding of the accountability-fe habit/streak tracking UI.

The repository has four source files:
* `src/App.tsx` — the Navigation Shell (selection state, back handlers);
* `src/views/StreaksListView.tsx` — streaks list with AbortController wiring
  inside `useEffect`;
* `GoalsListView` — goals list (`formatTarget` secondary line);
* an older `StreaksListView` variant plus `LogHistoryView` (`renderValue`,
  `buildUrl`, date-range filters).

JavaScript numeric values that may arrive as `number | string` are embedded
as `NumVal`; `Number()` is modelled on integer-valued inputs (`jsNumber`),
with `none` standing for `NaN`.  Strings, options and lists are embedded
directly.  The fetch lifecycle of each view (`load` with `setLoading`,
`setError`, `setItems` and the `AbortError` guard) is embedded as a pure
state transformer over `ViewState`, the JSX render output as `RenderOutput`,
and the `useEffect`/`AbortController` wiring as a small operational
semantics over `FetchWorld`.
-/

namespace AccountabilityFe

/-- Goal type tag: `"binary" | "count"` in the TypeScript source. -/
inductive GoalType where
  | binary
  | count
deriving DecidableEq

/-- A JSON value that is either a number or a string
(`number | string` in TS, e.g. Prisma Decimal serialized as string). -/
inductive NumVal where
  | num (n : Int)
  | str (s : String)
deriving DecidableEq

/-- Reads a non-empty run of decimal digits; `none` on any non-digit. -/
def digitsToNat : List Char → Nat → Option Nat
  | [], acc => some acc
  | c :: rest, acc =>
      if c.isDigit then digitsToNat rest (acc * 10 + (c.toNat - 48)) else none

/-- JS `Number()` on a string, restricted to integer-literal inputs:
the empty string converts to `0`, an (optionally negated) decimal
integer literal converts to its value, anything else is `NaN`
(`none`). -/
def jsNumberOfString (s : String) : Option Int :=
  match s.data with
  | [] => some 0
  | '-' :: c :: rest => (digitsToNat (c :: rest) 0).map fun n => -(n : Int)
  | cs => (digitsToNat cs 0).map fun n => (n : Int)

/-- JS `Number()` on a `number | string` value; `none` models `NaN`. -/
def jsNumber : NumVal → Option Int
  | .num n => some n
  | .str s => jsNumberOfString s

/-- The pattern `v != null ? Number(v) : null` followed by the
`n != null && !Number.isNaN(n)` guard: `none` covers both the null
and the NaN case (the source treats them identically afterwards). -/
def numOptToNumber (v : Option NumVal) : Option Int :=
  v.bind jsNumber

/-- Streak record as fetched from `GET /streaks`. -/
structure Streak where
  id : String
  userId : String
  name : String
  startDate : String
  endDate : String
deriving DecidableEq

/-- Goal record as fetched from `GET /goals`. -/
structure Goal where
  id : String
  streakId : String
  name : String
  type : GoalType
  unit : Option String
  perDayTarget : Option NumVal
deriving DecidableEq

/-- Log entry record as fetched from `GET /log-entries`. -/
structure LogEntry where
  id : String
  goalId : String
  localDate : String
  value : Option NumVal
  done : Option Bool
  note : Option String
  editedAt : Option String
deriving DecidableEq

/-- JS truthiness of a `string | null | undefined` value:
truthy exactly when present and non-empty. -/
def strTruthy : Option String → Bool
  | some s => s ≠ ""
  | none => false

/-- `formatTarget` from GoalsListView:
```
if (goal.type !== "count") return "binary";
const n = goal.perDayTarget != null ? Number(goal.perDayTarget) : null;
const unit = goal.unit ?? "";
if (n != null && !Number.isNaN(n)) {
  return unit ? `${n} ${unit}/day` : `${n}/day`;
}
return unit ? `${unit}/day` : "count";
```
-/
def formatTarget (goal : Goal) : String :=
  if goal.type ≠ GoalType.count then "binary"
  else
    let unit := goal.unit.getD ""
    match numOptToNumber goal.perDayTarget with
    | some n => if unit ≠ "" then toString n ++ " " ++ unit ++ "/day"
                else toString n ++ "/day"
    | none => if unit ≠ "" then unit ++ "/day" else "count"

/-- The goal row's secondary line as rendered by GoalsListView:
`g.type === "binary" ? "binary" : formatTarget(g)`. -/
def goalSecondaryLine (g : Goal) : String :=
  if g.type = GoalType.binary then "binary" else formatTarget g

/-- `renderValue` from LogHistoryView (`goalType` and `unit` are props
captured by the closure):
```
if (goalType === "binary") return e.done ? "Done" : "Not done";
const n = e.value != null ? Number(e.value) : null;
if (n != null && !Number.isNaN(n)) return unit ? `${n} ${unit}` : `${n}`;
return "—";
```
-/
def renderValue (goalType : Option GoalType) (unit : Option String)
    (e : LogEntry) : String :=
  if goalType = some GoalType.binary then
    if e.done = some true then "Done" else "Not done"
  else
    match numOptToNumber e.value with
    | some n =>
        match unit with
        | some u => if u ≠ "" then toString n ++ " " ++ u else toString n
        | none => toString n
    | none => "—"

/-- `buildUrl`'s `URLSearchParams` content from LogHistoryView, as the
ordered list of (key, value) pairs:
```
params.set("goalId", goalId);
if (from) params.set("from", from);
if (to) params.set("to", to);
```
-/
def buildUrlParams (goalId fromD toD : String) : List (String × String) :=
  ("goalId", goalId) ::
    ((if fromD ≠ "" then [("from", fromD)] else []) ++
     (if toD ≠ "" then [("to", toD)] else []))

/-- `params.toString()` (percent-encoding is the identity on the
`YYYY-MM-DD` dates and uuid ids this view passes). -/
def queryString (ps : List (String × String)) : String :=
  String.intercalate "&" (ps.map fun p => p.1 ++ "=" ++ p.2)

/-- `buildUrl` from LogHistoryView. -/
def buildUrl (apiUrl goalId fromD toD : String) : String :=
  apiUrl ++ "/log-entries?" ++ queryString (buildUrlParams goalId fromD toD)

/-! ### Per-view request lifecycle -/

/-- The `useState` triple each list view owns:
`items` (streaks / goals / entries), `loading`, `error`. -/
structure ViewState (α : Type) where
  items : List α
  loading : Bool
  error : Option String
deriving DecidableEq

/-- Initial view state:
`useState<T[]>([])`, `useState(true)`, `useState<string | null>(null)`. -/
def initView {α : Type} : ViewState α :=
  { items := [], loading := true, error := none }

/-- The synchronous head of `load`: `setLoading(true); setError(null);`
(the state React renders while the fetch is in flight). -/
def beginLoad {α : Type} (st : ViewState α) : ViewState α :=
  { st with loading := true, error := none }

/-- How the awaited `fetch` settles: either the promise resolves with a
status and (when consumed) a JSON array body, or it rejects with a JS
error carrying a `name` and a `message` (network failure, abort, or a
body that fails to parse). -/
inductive FetchOutcome (α : Type) where
  | ok (status : Nat) (body : List α)
  | reject (errName : String) (errMsg : String)
deriving DecidableEq

/-- `Response.ok`: status in the inclusive range 200–299. -/
def resOk (status : Nat) : Bool :=
  200 ≤ status && status ≤ 299

/-- The rest of `load` after the fetch settles, parameterized by the
view's non-2xx message builder (`Failed to load <resource> (${status})`):
```
try {
  const res = await fetch(...);
  if (!res.ok) throw new Error(failMsg(res.status));
  const data = (await res.json()) as T[];
  setItems(data);
} catch (e) {
  if (e?.name !== "AbortError") setError(e?.message || "Failed to load");
} finally {
  setLoading(false);
}
```
-/
def resolveLoad {α : Type} (failMsg : Nat → String) (st : ViewState α)
    (out : FetchOutcome α) : ViewState α :=
  match out with
  | .ok status body =>
      if resOk status then { st with items := body, loading := false }
      else { st with error := some (failMsg status), loading := false }
  | .reject name msg =>
      if name = "AbortError" then { st with loading := false }
      else
        { st with error := some (if msg = "" then "Failed to load" else msg),
                  loading := false }

/-- One complete `load` call: the synchronous head followed by the
settled fetch. -/
def loadOp {α : Type} (failMsg : Nat → String) (st : ViewState α)
    (out : FetchOutcome α) : ViewState α :=
  resolveLoad failMsg (beginLoad st) out

/-- StreaksListView's non-2xx error message. -/
def streaksFailMsg (status : Nat) : String :=
  "Failed to load streaks (" ++ toString status ++ ")"

/-- GoalsListView's non-2xx error message. -/
def goalsFailMsg (status : Nat) : String :=
  "Failed to load goals (" ++ toString status ++ ")"

/-- LogHistoryView's non-2xx error message. -/
def logEntriesFailMsg (status : Nat) : String :=
  "Failed to load log entries (" ++ toString status ++ ")"

/-! ### Render output -/

/-- What the common JSX of the three list views decides to show. -/
structure RenderOutput (α : Type) where
  loadingMsg : Bool
  errorBanner : Bool
  emptyState : Bool
  rows : List α
deriving DecidableEq

/-- The shared render structure of all three views:
```
{loading && <p>Loading …</p>}
{error && <div>{error}</div>}
{!loading && !error && items.length === 0 && <div>No … yet.</div>}
<ul>{items.map((x) => <li>…</li>)}</ul>
```
The `<ul>` item list is rendered unconditionally from `items`. -/
def render {α : Type} (st : ViewState α) : RenderOutput α :=
  { loadingMsg := st.loading
    errorBanner := strTruthy st.error
    emptyState := !st.loading && !strTruthy st.error && st.items.isEmpty
    rows := st.items }

/-! ### Navigation Shell (App.tsx) -/

/-- `selectedStreak` state: `{ id: string; name?: string } | null`. -/
structure StreakSel where
  id : String
  name : Option String
deriving DecidableEq

/-- `selectedGoal` state:
`{ id: string; name?: string; type?: "binary" | "count"; unit?: string | null } | null`. -/
structure GoalSel where
  id : String
  name : Option String
  type : Option GoalType
  unit : Option String
deriving DecidableEq

/-- The Navigation Shell's selection state. -/
structure NavState where
  selectedStreak : Option StreakSel
  selectedGoal : Option GoalSel
deriving DecidableEq

/-- Initial shell state: both selections `null`. -/
def initNav : NavState :=
  { selectedStreak := none, selectedGoal := none }

/-- The user interactions the shell exposes.  Exactly one back button is
rendered at a time (in the goals view it clears both selections, in the
logs view it clears only the goal), so a single `back` event suffices. -/
inductive NavEvent where
  | selectStreak (id : String) (name : Option String)
  | selectGoal (id : String) (name : Option String) (ty : Option GoalType)
  | back

/-- One shell transition.  An event is only available when the view that
hosts its button is rendered (`showStreaks = !selectedStreak`,
`showGoals = streak && !goal`, `showLogs = streak && goal`); an
unavailable event yields `none`.
* `onSelectStreak`: `setSelectedGoal(null); setSelectedStreak({id, name})`.
* `onSelectGoal`: `setSelectedGoal({id, name, type})` — no `unit` field,
  so the stored `unit` is `undefined` (`none`).
* back from goals: `setSelectedGoal(null); setSelectedStreak(null)`.
* back from logs: `setSelectedGoal(null)`. -/
def navStep (s : NavState) (e : NavEvent) : Option NavState :=
  match e with
  | .selectStreak i n =>
      match s.selectedStreak with
      | none => some { selectedStreak := some { id := i, name := n },
                       selectedGoal := none }
      | some _ => none
  | .selectGoal i n t =>
      match s.selectedStreak, s.selectedGoal with
      | some stk, none =>
          some { selectedStreak := some stk,
                 selectedGoal := some { id := i, name := n, type := t,
                                        unit := none } }
      | _, _ => none
  | .back =>
      match s.selectedStreak, s.selectedGoal with
      | some stk, some _ => some { selectedStreak := some stk,
                                   selectedGoal := none }
      | some _, none => some { selectedStreak := none, selectedGoal := none }
      | none, _ => none

/-- The shell states reachable from the initial state through its
transitions. -/
inductive ReachNav : NavState → Prop where
  | init : ReachNav initNav
  | step (s : NavState) (e : NavEvent) (t : NavState) :
      ReachNav s → navStep s e = some t → ReachNav t

/-! ### Effect / AbortController wiring -/

/-- One view instance's world: its rendered state plus the bookkeeping
of the requests its effect has started.  `active` is the id of the
request whose controller has not been aborted (the most recently
triggered one, while mounted); `aborted` collects the ids whose
controllers were aborted; ids below `nextId` have been started. -/
structure FetchWorld (α : Type) where
  view : ViewState α
  active : Option Nat
  aborted : List Nat
  nextId : Nat
deriving DecidableEq

/-- World before the first effect runs. -/
def initWorld {α : Type} : FetchWorld α :=
  { view := initView, active := none, aborted := [], nextId := 0 }

/-- Abort the current controller (push its id onto `aborted`). -/
def abortActive {α : Type} (w : FetchWorld α) : List Nat :=
  match w.active with
  | some j => j :: w.aborted
  | none => w.aborted

/-- The effect of `StreaksListView.tsx` (and GoalsListView /
LogHistoryView) on mount or parameter change: React first runs the
previous effect's cleanup `() => controller.abort()`, then the new
effect creates a fresh `AbortController` and starts `load`:
```
const controller = new AbortController();
void load({ signal: controller.signal });
return () => controller.abort();
```
-/
def effectFixed {α : Type} (w : FetchWorld α) : FetchWorld α :=
  { view := beginLoad w.view
    active := some w.nextId
    aborted := abortActive w
    nextId := w.nextId + 1 }

/-- Unmount under the fixed wiring: the cleanup aborts the in-flight
request; no new request starts. -/
def unmountFixed {α : Type} (w : FetchWorld α) : FetchWorld α :=
  { w with active := none, aborted := abortActive w }

/-- The effect of the older StreaksListView variant:
```
const cancel = load();          // a Promise, not a function
return () => {
  typeof cancel === "function" && cancel();   // always false: no abort
};
```
`load()` is `async`, so `cancel` is a `Promise` and the cleanup never
calls `abort`; a parameter change starts a new request but leaves the
superseded one un-aborted. -/
def effectBroken {α : Type} (w : FetchWorld α) : FetchWorld α :=
  { view := beginLoad w.view
    active := some w.nextId
    aborted := w.aborted
    nextId := w.nextId + 1 }

/-- Request `i`'s fetch settles with `out`.  If `i`'s controller was
aborted before settlement, the fetch promise instead rejects with an
`AbortError` (the DOM fetch contract) and the response data never
reaches `load`'s continuation. -/
def resolveFetch {α : Type} (failMsg : Nat → String) (w : FetchWorld α)
    (i : Nat) (out : FetchOutcome α) : FetchWorld α :=
  let actual := if i ∈ w.aborted then
                  FetchOutcome.reject "AbortError" "signal is aborted"
                else out
  { w with view := resolveLoad failMsg w.view actual }

/-- Worlds reachable for a view with the fixed wiring: effects (mount or
parameter change), unmounts, and settlements of started requests may
interleave arbitrarily. -/
inductive ReachFixed {α : Type} (failMsg : Nat → String) :
    FetchWorld α → Prop where
  | init : ReachFixed failMsg initWorld
  | effect (w : FetchWorld α) :
      ReachFixed failMsg w → ReachFixed failMsg (effectFixed w)
  | unmount (w : FetchWorld α) :
      ReachFixed failMsg w → ReachFixed failMsg (unmountFixed w)
  | resolve (w : FetchWorld α) (i : Nat) (out : FetchOutcome α) :
      ReachFixed failMsg w → i < w.nextId →
      ReachFixed failMsg (resolveFetch failMsg w i out)

/-! ### Concrete sample data -/

/-- A streak belonging to user A, used in concrete traces. -/
def streakA : Streak :=
  { id := "sA", userId := "userA", name := "Morning run",
    startDate := "2025-01-01", endDate := "2025-02-01" }

/-- A streak belonging to user B, used in concrete traces. -/
def streakB : Streak :=
  { id := "sB", userId := "userB", name := "Hydration",
    startDate := "2025-03-01", endDate := "2025-04-01" }

/-! ## Theorems -/

/-- C5: the goal secondary line renders `"binary"` for every binary-type
goal regardless of its other fields; a count goal with target 2 and unit
"L" renders `"2 L/day"`; with a null target and unit "L" it renders
`"L/day"`; with both target and unit null it renders `"count"`. -/
theorem goalSecondaryLine_spec :
    (∀ (i s n : String) (u : Option String) (t : Option NumVal),
      goalSecondaryLine { id := i, streakId := s, name := n,
                          type := GoalType.binary, unit := u,
                          perDayTarget := t } = "binary")
    ∧ goalSecondaryLine { id := "g1", streakId := "s1", name := "Water",
                          type := GoalType.count, unit := some "L",
                          perDayTarget := some (NumVal.num 2) } = "2 L/day"
    ∧ goalSecondaryLine { id := "g1", streakId := "s1", name := "Water",
                          type := GoalType.count, unit := some "L",
                          perDayTarget := none } = "L/day"
    ∧ goalSecondaryLine { id := "g1", streakId := "s1", name := "Water",
                          type := GoalType.count, unit := none,
                          perDayTarget := none } = "count" :=
  ⟨fun _ _ _ _ _ => rfl, rfl, rfl, rfl⟩

/-- C6: under a binary goal type, a log entry with `done = true` renders
`"Done"` and `done = false` renders `"Not done"` (whatever the unit);
under a count goal type, value `"250"` (a numeric string) with unit
`"ml"` renders `"250 ml"`, and a null value renders the em-dash. -/
theorem renderValue_spec :
    (∀ (u : Option String) (v : Option NumVal) (nt ed : Option String),
      renderValue (some GoalType.binary) u
        { id := "e1", goalId := "g1", localDate := "2025-01-02",
          value := v, done := some true, note := nt, editedAt := ed }
          = "Done")
    ∧ (∀ (u : Option String) (v : Option NumVal) (nt ed : Option String),
      renderValue (some GoalType.binary) u
        { id := "e1", goalId := "g1", localDate := "2025-01-02",
          value := v, done := some false, note := nt, editedAt := ed }
          = "Not done")
    ∧ renderValue (some GoalType.count) (some "ml")
        { id := "e2", goalId := "g1", localDate := "2025-01-02",
          value := some (NumVal.str "250"), done := none, note := none,
          editedAt := none } = "250 ml"
    ∧ (∀ (u : Option String),
      renderValue (some GoalType.count) u
        { id := "e3", goalId := "g1", localDate := "2025-01-02",
          value := none, done := none, note := none, editedAt := none }
          = "—") := by
  refine ⟨fun _ _ _ _ => rfl, fun _ _ _ _ => rfl, ?_, fun _ => rfl⟩
  decide

/-- C10: under a binary goal type, an entry whose `done` flag is null is
rendered `"Not done"` — `e.done ? "Done" : "Not done"` collapses the
null flag into the falsy branch. -/
theorem renderValue_nullDone_notDone :
    ∀ (u : Option String) (v : Option NumVal) (nt ed : Option String),
      renderValue (some GoalType.binary) u
        { id := "e4", goalId := "g1", localDate := "2025-01-03",
          value := v, done := none, note := nt, editedAt := ed }
        = "Not done" :=
  fun _ _ _ _ => rfl

/-- C2: when the settled fetch rejects with an `AbortError` (a cancelled
request), no view's `load` sets the error state: `resolveLoad` leaves
`error` and `items` untouched, and a complete `load` call ends with
`error = none` — never the Failed state. -/
theorem abortError_neverSetsError (α : Type) (failMsg : Nat → String)
    (st : ViewState α) (msg : String) :
    (resolveLoad failMsg st (FetchOutcome.reject "AbortError" msg)).error
        = st.error
    ∧ (resolveLoad failMsg st (FetchOutcome.reject "AbortError" msg)).items
        = st.items
    ∧ (loadOp failMsg st (FetchOutcome.reject "AbortError" msg)).error
        = none := by
  refine ⟨?_, ?_, ?_⟩ <;> simp [resolveLoad, loadOp, beginLoad]

/-- C8: the Log Entries request URL parameters contain `goalId` always,
contain `from` exactly when the `from` filter is non-empty, and contain
`to` exactly when the `to` filter is non-empty; a cleared (empty-string)
filter is absent rather than sent empty. -/
theorem buildUrlParams_filters (g f t : String) :
    "goalId" ∈ (buildUrlParams g f t).map Prod.fst
    ∧ ("from" ∈ (buildUrlParams g f t).map Prod.fst ↔ f ≠ "")
    ∧ ("to" ∈ (buildUrlParams g f t).map Prod.fst ↔ t ≠ "") := by
  by_cases hf : f = "" <;> by_cases ht : t = "" <;>
    simp [buildUrlParams, hf, ht]

/-- Witness for C8 at `goalId = "g1"`, `from = "2025-01-01"`,
`to = ""`: `goalId` and `from` appear, `to` does not. -/
theorem buildUrlParams_filters_witness :
    "goalId" ∈ (buildUrlParams "g1" "2025-01-01" "").map Prod.fst
    ∧ "from" ∈ (buildUrlParams "g1" "2025-01-01" "").map Prod.fst
    ∧ ¬ "to" ∈ (buildUrlParams "g1" "2025-01-01" "").map Prod.fst := by
  obtain ⟨h1, h2, h3⟩ := buildUrlParams_filters "g1" "2025-01-01" ""
  exact ⟨h1, h2.mpr (by decide), fun hm => (h3.mp hm) rfl⟩

/-- Every state a single shell transition produces satisfies: a selected
goal implies a selected streak. -/
lemma navStep_goal_implies_streak (s : NavState) (e : NavEvent)
    (t : NavState) (h : navStep s e = some t) :
    t.selectedGoal.isSome = true → t.selectedStreak.isSome = true := by
  obtain ⟨stk, gl⟩ := s
  cases e <;> cases stk <;> cases gl <;> simp only [navStep] at h <;>
    first
      | exact Option.noConfusion h
      | (cases Option.some.inj h; simp)

/-- Every reachable shell state satisfies: a selected goal implies a
selected streak. -/
lemma reachNav_goal_implies_streak (s : NavState) (h : ReachNav s) :
    s.selectedGoal.isSome = true → s.selectedStreak.isSome = true := by
  induction h with
  | init => intro hg; simp [initNav] at hg
  | step s e t _ hstep _ => exact navStep_goal_implies_streak s e t hstep

/-- C4: from the initial no-selection state, the transition sequence
select-streak, select-goal, back, back returns the Navigation Shell to
the initial state; and in every reachable shell state a selected goal
implies a selected streak, so "goal selected but streak cleared" is
unreachable. -/
theorem nav_backBack_and_goalImpliesStreak (si : String)
    (sn : Option String) (gi : String) (gn : Option String)
    (gt : Option GoalType) :
    ((((navStep initNav (NavEvent.selectStreak si sn)).bind
        fun s => navStep s (NavEvent.selectGoal gi gn gt)).bind
        fun s => navStep s NavEvent.back).bind
        fun s => navStep s NavEvent.back) = some initNav
    ∧ ∀ s : NavState, ReachNav s → s.selectedGoal.isSome = true →
        s.selectedStreak.isSome = true :=
  ⟨rfl, reachNav_goal_implies_streak⟩

/-- Witness for C4 at concrete ids: the four-step round trip at
`streak "s1"`, `goal "g1"`, and the invariant at the reachable state
with both selections made. -/
theorem nav_backBack_and_goalImpliesStreak_witness :
    ((((navStep initNav (NavEvent.selectStreak "s1" (some "Run"))).bind
        fun s => navStep s
          (NavEvent.selectGoal "g1" none (some GoalType.count))).bind
        fun s => navStep s NavEvent.back).bind
        fun s => navStep s NavEvent.back) = some initNav
    ∧ Option.isSome (NavState.selectedStreak
        (NavState.mk (some (StreakSel.mk "s1" (some "Run")))
          (some (GoalSel.mk "g1" none (some GoalType.count) none)))) = true := by
  refine ⟨(nav_backBack_and_goalImpliesStreak "s1" (some "Run") "g1" none
    (some GoalType.count)).1, ?_⟩
  have h1 : ReachNav (NavState.mk (some (StreakSel.mk "s1" (some "Run"))) none) :=
    ReachNav.step initNav (NavEvent.selectStreak "s1" (some "Run")) _
      ReachNav.init rfl
  have hreach : ReachNav (NavState.mk (some (StreakSel.mk "s1" (some "Run")))
      (some (GoalSel.mk "g1" none (some GoalType.count) none))) :=
    ReachNav.step _ (NavEvent.selectGoal "g1" none (some GoalType.count)) _
      h1 rfl
  exact (nav_backBack_and_goalImpliesStreak "s1" (some "Run") "g1" none
    (some GoalType.count)).2 _ hreach rfl

/-- Every state a single shell transition produces stores no unit in the
selected goal. -/
lemma navStep_unit_none (s : NavState) (e : NavEvent) (t : NavState)
    (h : navStep s e = some t) :
    ∀ g, t.selectedGoal = some g → g.unit = none := by
  obtain ⟨stk, gl⟩ := s
  cases e <;> cases stk <;> cases gl <;> simp only [navStep] at h <;>
    first
      | exact Option.noConfusion h
      | (cases Option.some.inj h; intro g hg;
         first
           | exact Option.noConfusion hg
           | (cases Option.some.inj hg; rfl))

/-- Every reachable shell state stores no unit in the selected goal. -/
lemma reachNav_unit_none (s : NavState) (h : ReachNav s) :
    ∀ g, s.selectedGoal = some g → g.unit = none := by
  induction h with
  | init => intro g hg; simp [initNav] at hg
  | step s e t _ hstep _ => exact navStep_unit_none s e t hstep

/-- C9: in every reachable shell state the selected goal's `unit` is
`undefined` (the `onSelectGoal` handler never records one), so the
`unit` prop the shell hands to LogHistoryView is `undefined`, under
which a count goal's numeric log value renders as the bare number with
no unit suffix. -/
theorem shellUnit_alwaysNone (s : NavState) (hs : ReachNav s) :
    (∀ g, s.selectedGoal = some g → g.unit = none)
    ∧ (s.selectedGoal.bind GoalSel.unit = none)
    ∧ (∀ (e : LogEntry) (n : Int), numOptToNumber e.value = some n →
        renderValue (some GoalType.count) none e = toString n) := by
  refine ⟨reachNav_unit_none s hs, ?_, ?_⟩
  · cases hg : s.selectedGoal with
    | none => rfl
    | some g => simp [reachNav_unit_none s hs g hg]
  · intro e n hn
    simp [renderValue, hn]

/-- Witness for C9 at the reachable state with goal `"g2"` selected and
a log entry of value 7: the stored unit is `none` and the value renders
as the bare `"7"`. -/
theorem shellUnit_alwaysNone_witness :
    (GoalSel.mk "g2" none (some GoalType.count) none).unit = none
    ∧ renderValue (some GoalType.count) none
        { id := "e7", goalId := "g2", localDate := "2025-01-05",
          value := some (NumVal.num 7), done := none, note := none,
          editedAt := none } = toString (7 : Int) := by
  have h0 : ReachNav (NavState.mk (some (StreakSel.mk "s2" none)) none) :=
    ReachNav.step initNav (NavEvent.selectStreak "s2" none) _
      ReachNav.init rfl
  have hreach : ReachNav (NavState.mk (some (StreakSel.mk "s2" none))
      (some (GoalSel.mk "g2" none (some GoalType.count) none))) :=
    ReachNav.step _ (NavEvent.selectGoal "g2" none (some GoalType.count)) _
      h0 rfl
  obtain ⟨h1, _, h3⟩ := shellUnit_alwaysNone _ hreach
  exact ⟨h1 _ rfl, h3 _ 7 rfl⟩

/-- A `load` whose response status is non-2xx sets the error to the
view's synthesized message and leaves the items untouched. -/
lemma loadOp_non2xx {α : Type} (failMsg : Nat → String) (st : ViewState α)
    (status : Nat) (body : List α) (h : resOk status = false) :
    (loadOp failMsg st (FetchOutcome.ok status body)).error
        = some (failMsg status)
    ∧ (loadOp failMsg st (FetchOutcome.ok status body)).items = st.items
    ∧ (loadOp failMsg st (FetchOutcome.ok status body)).loading = false := by
  refine ⟨?_, ?_, ?_⟩ <;> simp [loadOp, beginLoad, resolveLoad, h]

/-- C3 (amended): in each of the three views, a non-2xx response
transitions to the Failed state with a message containing the numeric
status code and leaves the items list unchanged; consequently no item
rows render in that Failed state whenever the items list was empty
before the failed load (as on a first load), though rows loaded by an
earlier successful request remain rendered. -/
theorem non2xx_failedState (status : Nat) (h : resOk status = false)
    (s1 : ViewState Streak) (b1 : List Streak)
    (s2 : ViewState Goal) (b2 : List Goal)
    (s3 : ViewState LogEntry) (b3 : List LogEntry) :
    ((∃ pre post, (loadOp streaksFailMsg s1 (FetchOutcome.ok status b1)).error
        = some (pre ++ toString status ++ post))
      ∧ (loadOp streaksFailMsg s1 (FetchOutcome.ok status b1)).items = s1.items
      ∧ (s1.items = [] →
          (render (loadOp streaksFailMsg s1 (FetchOutcome.ok status b1))).rows
            = []))
    ∧ ((∃ pre post, (loadOp goalsFailMsg s2 (FetchOutcome.ok status b2)).error
        = some (pre ++ toString status ++ post))
      ∧ (loadOp goalsFailMsg s2 (FetchOutcome.ok status b2)).items = s2.items
      ∧ (s2.items = [] →
          (render (loadOp goalsFailMsg s2 (FetchOutcome.ok status b2))).rows
            = []))
    ∧ ((∃ pre post,
          (loadOp logEntriesFailMsg s3 (FetchOutcome.ok status b3)).error
            = some (pre ++ toString status ++ post))
      ∧ (loadOp logEntriesFailMsg s3 (FetchOutcome.ok status b3)).items
          = s3.items
      ∧ (s3.items = [] →
          (render (loadOp logEntriesFailMsg s3
            (FetchOutcome.ok status b3))).rows = [])) := by
  obtain ⟨e1, i1, _⟩ := loadOp_non2xx streaksFailMsg s1 status b1 h
  obtain ⟨e2, i2, _⟩ := loadOp_non2xx goalsFailMsg s2 status b2 h
  obtain ⟨e3, i3, _⟩ := loadOp_non2xx logEntriesFailMsg s3 status b3 h
  refine ⟨⟨⟨"Failed to load streaks (", ")", e1⟩, i1, fun he => ?_⟩,
          ⟨⟨"Failed to load goals (", ")", e2⟩, i2, fun he => ?_⟩,
          ⟨⟨"Failed to load log entries (", ")", e3⟩, i3, fun he => ?_⟩⟩ <;>
    simp [render, i1, i2, i3, he]

/-- Witness for C3 at status 500 on a first load from the initial
state: the error message contains "500" and no rows render. -/
theorem non2xx_failedState_witness :
    (∃ pre post,
      (loadOp streaksFailMsg (initView (α := Streak))
        (FetchOutcome.ok 500 [])).error = some (pre ++ toString 500 ++ post))
    ∧ (render (loadOp streaksFailMsg (initView (α := Streak))
        (FetchOutcome.ok 500 []))).rows = [] := by
  obtain ⟨⟨hex, _, hrows⟩, _, _⟩ := non2xx_failedState 500 (by decide)
    initView [] initView [] initView []
  exact ⟨hex, hrows rfl⟩

/-- C3 as literally stated is false: after a successful load followed by
a failed manual refresh (HTTP 500), the view is in the Failed state
(error banner truthy) yet the previously loaded rows are still
rendered — the `<ul>` list is not gated on `error`. -/
theorem non2xx_staleRowsStillRender_cex :
    strTruthy (loadOp streaksFailMsg
      (loadOp streaksFailMsg (initView (α := Streak))
        (FetchOutcome.ok 200 [streakA]))
      (FetchOutcome.ok 500 [])).error = true
    ∧ (render (loadOp streaksFailMsg
        (loadOp streaksFailMsg (initView (α := Streak))
          (FetchOutcome.ok 200 [streakA]))
        (FetchOutcome.ok 500 []))).rows = [streakA] := by
  decide

/-- C7 (amended): in every view state, Loading shows the loading message
and suppresses the empty-state placeholder; a truthy error shows the
error banner and suppresses the empty-state placeholder; but the item
list is rendered unconditionally from the retained items state — it is
not suppressed by the Loading or Failed state. -/
theorem renderPrecedence (α : Type) (st : ViewState α) :
    (st.loading = true →
      (render st).loadingMsg = true ∧ (render st).emptyState = false)
    ∧ (strTruthy st.error = true →
      (render st).errorBanner = true ∧ (render st).emptyState = false)
    ∧ (render st).rows = st.items := by
  refine ⟨fun h => ⟨h, ?_⟩, fun h => ⟨h, ?_⟩, rfl⟩ <;> simp [render, h]

/-- Witness for C7 at a loading, failed state with one retained row. -/
theorem renderPrecedence_witness :
    (render (ViewState.mk [streakA] true (some "boom"))).loadingMsg = true
    ∧ (render (ViewState.mk [streakA] true (some "boom"))).emptyState = false
    ∧ (render (ViewState.mk [streakA] true (some "boom"))).errorBanner = true
    ∧ (render (ViewState.mk [streakA] true (some "boom"))).rows
        = [streakA] := by
  obtain ⟨h1, h2, h3⟩ := renderPrecedence Streak
    (ViewState.mk [streakA] true (some "boom"))
  obtain ⟨a, b⟩ := h1 rfl
  obtain ⟨c, _⟩ := h2 (by decide)
  exact ⟨a, b, c, h3⟩

/-- C7 as literally stated is false: during the reload that follows a
successful load (e.g., a parameter change re-triggering `load`), the
view is Loading yet the previously loaded row is still rendered — the
item list is not suppressed by the Loading state. -/
theorem renderPrecedence_cex :
    (beginLoad (loadOp streaksFailMsg (initView (α := Streak))
      (FetchOutcome.ok 200 [streakA]))).loading = true
    ∧ (render (beginLoad (loadOp streaksFailMsg (initView (α := Streak))
        (FetchOutcome.ok 200 [streakA])))).rows = [streakA] := by
  decide

/-! ### The cancellation race (C1) -/

/-- In the fixed wiring, every started request other than the active one
has been aborted: its id is below `nextId` and, unless it is the active
request, it is in `aborted`. -/
lemma reachFixed_active_inv {α : Type} (failMsg : Nat → String)
    (w : FetchWorld α) (hw : ReachFixed failMsg w) :
    ∀ i : Nat, i < w.nextId → w.aborted.contains i = false →
      w.active = some i := by
  induction hw with
  | init => intro i hi _; simp [initWorld] at hi
  | effect w _ ih =>
      intro i hi hab
      simp only [effectFixed] at hi hab ⊢
      rcases Nat.lt_succ_iff_lt_or_eq.mp hi with hlt | heq
      · cases hac : w.active with
        | none =>
            rw [abortActive, hac] at hab
            exact absurd (ih i hlt hab) (by rw [hac]; exact fun h => Option.noConfusion h)
        | some j =>
            rw [abortActive, hac] at hab
            simp only [List.contains_cons, Bool.or_eq_false_iff,
              beq_eq_false_iff_ne] at hab
            have := ih i hlt hab.2
            rw [hac] at this
            exact absurd (Option.some.inj this) (Ne.symm hab.1)
      · subst heq; rfl
  | unmount w _ ih =>
      intro i hi hab
      simp only [unmountFixed] at hi hab ⊢
      cases hac : w.active with
      | none =>
          rw [abortActive, hac] at hab
          exact absurd (ih i hi hab) (by rw [hac]; exact fun h => Option.noConfusion h)
      | some j =>
          rw [abortActive, hac] at hab
          simp only [List.contains_cons, Bool.or_eq_false_iff,
            beq_eq_false_iff_ne] at hab
          have := ih i hi hab.2
          rw [hac] at this
          exact absurd (Option.some.inj this) (Ne.symm hab.1)
  | resolve w i out _ _ ih =>
      intro j hj hab
      simp only [resolveFetch] at hj hab ⊢
      exact ih j hj hab

/-- In the fixed wiring, the settlement of any started request that is
not the active (most recently triggered, un-aborted) one never changes
the visible items state: the superseded fetch delivers an `AbortError`
and `load` drops it. -/
theorem fixedWiring_no_stale_update {α : Type} (failMsg : Nat → String)
    (w : FetchWorld α) (hw : ReachFixed failMsg w) (i : Nat)
    (out : FetchOutcome α) (hi : i < w.nextId)
    (hactive : w.active ≠ some i) :
    (resolveFetch failMsg w i out).view.items = w.view.items := by
  by_cases hab : i ∈ w.aborted
  · simp [resolveFetch, hab, resolveLoad]
  · exact absurd (reachFixed_active_inv failMsg w hw i hi (by simp [hab]))
      hactive

/-- C1: in the older StreaksListView variant the effect cleanup never
aborts (the `async` `load()` returns a `Promise`, so
`typeof cancel === "function"` is always false).  Concretely: mount
fetches for user A (request 0), the parameter changes to user B
(request 1 — now the most recently triggered), B's response arrives and
renders B's streaks, then A's late response arrives and overwrites the
items with A's streaks.  Under the fixed wiring of the other views the
same interleaving leaves B's streaks rendered, because request 0 was
aborted. -/
theorem brokenAbortWiring_staleResponseOverwrites :
    (effectBroken (effectBroken (initWorld (α := Streak)))).active = some 1
    ∧ (resolveFetch streaksFailMsg
        (effectBroken (effectBroken (initWorld (α := Streak))))
        1 (FetchOutcome.ok 200 [streakB])).view.items = [streakB]
    ∧ (resolveFetch streaksFailMsg
        (resolveFetch streaksFailMsg
          (effectBroken (effectBroken (initWorld (α := Streak))))
          1 (FetchOutcome.ok 200 [streakB]))
        0 (FetchOutcome.ok 200 [streakA])).view.items = [streakA]
    ∧ (resolveFetch streaksFailMsg
        (resolveFetch streaksFailMsg
          (effectFixed (effectFixed (initWorld (α := Streak))))
          1 (FetchOutcome.ok 200 [streakB]))
        0 (FetchOutcome.ok 200 [streakA])).view.items = [streakB] := by
  decide

end AccountabilityFe
